import Mathlib

/-!
# SCT voting backend — verification development

Shallow embedding of the `condorcet-disciples/sct` repository:
the Express server (`frontend/server.js`) and the election engine it
invokes.  The server's routes (cast vote, generate synthetic votes,
results, clear, delete) are embedded as pure state-passing functions.
The Python engine (`sct/elections.py`, `sct/randomization/…`,
`frontend/scripts/…`) is not part of the available sources, so the rule
evaluators and the synthetic-ballot generator are modelled from the
design document's contracts (each such definition is marked
`Modelled from the spec:`).
-/

namespace SCT

/-! ## Ballot model (engine side)

The reference deployment has a fixed slate of 4 candidates; an engine
ballot is one integer grade in `[0, 4]` per candidate. -/

/-- An engine ballot: a grade per candidate of the fixed 4-candidate slate. -/
def Ballot : Type := Fin 4 → ℕ

/-- Build a ballot from the four grades (candidate 1 … candidate 4). -/
def mkBallot (g1 g2 g3 g4 : ℕ) : Ballot := fun c => [g1, g2, g3, g4].getD c.val 0

/-! ## Plurality evaluator

Modelled from the spec: "For each ballot, determine its top choice(s).
If a ballot has a unique maximum grade, that candidate receives one
vote.  If multiple candidates share the ballot's maximum grade, the
ballot's vote is split: each tied top candidate receives `1 / k` votes,
where k is the number of candidates tied for that ballot's maximum."
(The Plurality evaluator itself lives in the Python engine, which is
not among the available sources.) -/

/-- The maximum grade appearing on a ballot. -/
def maxGrade (b : Ballot) : ℕ :=
  Finset.univ.sup' Finset.univ_nonempty b

/-- The candidates sharing the ballot's maximum grade. -/
def topChoices (b : Ballot) : Finset (Fin 4) :=
  Finset.univ.filter (fun c => b c = maxGrade b)

/-- Number of candidates tied at the ballot's maximum grade. -/
def topCount (b : Ballot) : ℕ := (topChoices b).card

/-- Modelled from the spec: the vote mass one ballot gives candidate `c`
(`1/k` for each of the `k` tied top candidates, `0` otherwise). -/
def pluralityShare (b : Ballot) (c : Fin 4) : ℚ :=
  if c ∈ topChoices b then ((topCount b : ℚ))⁻¹ else 0

/-- Modelled from the spec: candidate `c`'s total Plurality vote mass
over a ballot collection. -/
def pluralityVotes (ballots : List Ballot) (c : Fin 4) : ℚ :=
  (ballots.map (fun b => pluralityShare b c)).sum

lemma topChoices_nonempty (b : Ballot) : (topChoices b).Nonempty := by
  obtain ⟨c, _, hc⟩ := Finset.exists_mem_eq_sup' (Finset.univ_nonempty) b
  exact ⟨c, by simp [topChoices, hc.symm, maxGrade]⟩

lemma topCount_ne_zero (b : Ballot) : topCount b ≠ 0 :=
  Nat.pos_iff_ne_zero.mp (topChoices_nonempty b).card_pos

/-- Each single ballot distributes exactly one unit of vote mass. -/
lemma sum_pluralityShare (b : Ballot) : (∑ c, pluralityShare b c) = 1 := by
  have hcast : ((topCount b : ℚ)) ≠ 0 := by
    exact_mod_cast topCount_ne_zero b
  calc (∑ c, pluralityShare b c)
      = ∑ _c ∈ topChoices b, ((topCount b : ℚ))⁻¹ := by
        simp [pluralityShare, Finset.sum_ite_mem]
    _ = (topCount b : ℚ) * ((topCount b : ℚ))⁻¹ := by
        rw [Finset.sum_const, nsmul_eq_mul]
        rfl
    _ = 1 := mul_inv_cancel₀ hcast

/-- A ballot whose maximum grade is unique gives its top candidate one
full vote. -/
lemma pluralityShare_unique_top (b : Ballot) (c : Fin 4)
    (hc : c ∈ topChoices b) (h1 : topCount b = 1) : pluralityShare b c = 1 := by
  simp [pluralityShare, hc, h1]

/-! ## Borda evaluator

Modelled from the spec: "Borda score per candidate is the sum, across
ballots, of that candidate's grade (no additional weighting) …
Winner = candidate(s) with the maximum summed grade; ties reported as a
winner set."  (The Borda evaluator lives in the missing Python engine.) -/

/-- Modelled from the spec: candidate `c`'s Borda score, the sum of
`c`'s grade over all ballots. -/
def bordaScore (ballots : List Ballot) (c : Fin 4) : ℕ :=
  (ballots.map (fun b => b c)).sum

/-- The maximum Borda score over the slate. -/
def maxBordaScore (ballots : List Ballot) : ℕ :=
  Finset.univ.sup' Finset.univ_nonempty (bordaScore ballots)

/-- Modelled from the spec: the Borda winner set, all candidates whose
summed grade is maximal. -/
def bordaWinners (ballots : List Ballot) : Finset (Fin 4) :=
  Finset.univ.filter (fun c => bordaScore ballots c = maxBordaScore ballots)

/-! ## Majority Judgment evaluator

Modelled from the spec: "For each candidate, collect the multiset of
grades across all ballots and compute the median grade (for an even
ballot count, use the lower-median — the grade at position ⌈n/2⌉ in
sorted order …).  Rank candidates by descending median.  Tie-break:
among candidates sharing a median, repeatedly strip one instance of the
shared median grade from each tied candidate's multiset and recompute;
the candidate whose adjusted multiset yields a strictly higher
secondary median wins the tie.  If multisets are exhausted without
resolution, declare an exact tie."  (The evaluator lives in the missing
Python engine.) -/

/-- Insert a value into an ascending-sorted list of grades. -/
def insertSorted (x : ℕ) : List ℕ → List ℕ
  | [] => [x]
  | y :: ys => if x ≤ y then x :: y :: ys else y :: insertSorted x ys

/-- Sort a list of grades in ascending order (insertion sort). -/
def sortAsc (l : List ℕ) : List ℕ := l.foldr insertSorted []

/-- Modelled from the spec: the lower median — the grade at (1-based)
position `⌈n/2⌉` of the ascending-sorted grade list. -/
def lowerMedian (l : List ℕ) : ℕ :=
  (sortAsc l).getD ((l.length + 1) / 2 - 1) 0

/-- The multiset of grades candidate `c` received, in ballot order. -/
def gradesOf (ballots : List Ballot) (c : Fin 4) : List ℕ :=
  ballots.map (fun b => b c)

/-- Modelled from the spec: candidate `c`'s Majority Judgment median. -/
def mjMedian (ballots : List Ballot) (c : Fin 4) : ℕ :=
  lowerMedian (gradesOf ballots c)

/-- The maximum Majority Judgment median over the slate. -/
def maxMjMedian (ballots : List Ballot) : ℕ :=
  ((List.finRange 4).map (mjMedian ballots)).foldr Nat.max 0

/-- The candidates sharing the maximal median, in slate order. -/
def mjTied (ballots : List Ballot) : List (Fin 4) :=
  (List.finRange 4).filter (fun c => mjMedian ballots c = maxMjMedian ballots)

/-- One tie-break strip: remove one instance of the current median. -/
def stripMedian (g : List ℕ) : List ℕ := g.erase (lowerMedian g)

/-- Modelled from the spec: the iterative median-stripping tie-break.
Each round strips one instance of the median from every tied
candidate's multiset and keeps the candidates whose adjusted multiset
has the (strictly) highest secondary median; it stops when a single
candidate remains or the multisets are exhausted (exact tie). -/
def mjTieBreak : ℕ → List (Fin 4 × List ℕ) → List (Fin 4)
  | 0, tied => tied.map Prod.fst
  | fuel + 1, tied =>
    if tied.length ≤ 1 then tied.map Prod.fst
    else if tied.any (fun p => p.2.isEmpty) then tied.map Prod.fst
    else
      let stripped := tied.map (fun p => (p.1, stripMedian p.2))
      let best := (stripped.map (fun p => lowerMedian p.2)).foldr Nat.max 0
      mjTieBreak fuel (stripped.filter (fun p => lowerMedian p.2 = best))

/-- Modelled from the spec: the Majority Judgment winner set — the
median-maximal candidates, run through the tie-break when several
share the top median. -/
def mjWinners (ballots : List Ballot) : List (Fin 4) :=
  let tied := mjTied ballots
  if tied.length ≤ 1 then tied
  else mjTieBreak ballots.length (tied.map (fun c => (c, gradesOf ballots c)))

/-! ## The §8 scenario (claim C3)

Candidates `[A,B,C,D]` = `[0,1,2,3]`; 3 ballots grading A=4,B=0,C=0,D=0
and 2 ballots grading A=0,B=4,C=4,D=4. -/

/-- The 5-ballot scenario of the spec's §8 test list. -/
def scenarioBallots : List Ballot :=
  [mkBallot 4 0 0 0, mkBallot 4 0 0 0, mkBallot 4 0 0 0,
   mkBallot 0 4 4 4, mkBallot 0 4 4 4]

example : mjMedian scenarioBallots 0 = 4 := by decide
example : mjMedian scenarioBallots 1 = 0 := by decide
example : mjWinners scenarioBallots = [0] := by decide
example : bordaScore scenarioBallots 0 = 12 := by decide
example : bordaScore scenarioBallots 1 = 8 := by decide

/-! ## Synthetic ballot generator

Modelled from the spec: "Given `count`, `strategy ∈ {random, clustered,
biased}`, and an integer `seed`, produces `count` ballots
deterministically … All three must use one seeded pseudo-random stream
per generation call — never process-global randomness."  The concrete
generator (`sct/randomization/preference_generator.py` and
`frontend/scripts/generate_votes.py`) is not among the available
sources; the stream below is a linear congruential generator and the
strategies follow the spec's §4.7 descriptions. -/

/-- State of one seeded pseudo-random stream (LCG). -/
structure Rng where
  state : ℕ
deriving DecidableEq

/-- Advance the stream; returns a pseudo-random value and the new state. -/
def rngNext (r : Rng) : ℕ × Rng :=
  let s := (r.state * 1103515245 + 12345) % 2147483648
  (s / 65536, ⟨s⟩)

/-- Draw a value uniformly below `bound` from the stream. -/
def randBelow (bound : ℕ) (r : Rng) : ℕ × Rng :=
  let (x, r') := rngNext r
  (x % bound, r')

/-- Draw `n` values below `bound` from the stream. -/
def randList : ℕ → ℕ → Rng → List ℕ × Rng
  | 0, _, r => ([], r)
  | n + 1, b, r =>
    let (x, r') := randBelow b r
    let (xs, r'') := randList n b r'
    (x :: xs, r'')

/-- Clamp an integer into the grade scale `[0, 4]`. -/
def clamp04 (x : ℤ) : ℕ := (max 0 (min 4 x)).toNat

/-- Add bounded noise in `{-1, 0, 1}` to each grade of a base vector,
clamping to the scale. -/
def addNoise (base : List ℕ) (r : Rng) : List ℕ × Rng :=
  let (noise, r') := randList base.length 3 r
  ((base.zip noise).map (fun p => clamp04 ((p.1 : ℤ) + (p.2 : ℤ) - 1)), r')

/-- L1 distance between two grade vectors. -/
def l1dist (a b : List ℕ) : ℕ :=
  ((a.zip b).map (fun p => max p.1 p.2 - min p.1 p.2)).sum

/-- The archetype of `archs` nearest (L1) to the point `p`. -/
def nearestArchetype (p : List ℕ) (archs : List (List ℕ)) : List ℕ :=
  archs.foldl (fun best a => if l1dist p a < l1dist p best then a else best)
    (archs.getD 0 [2, 2, 2, 2])

/-- Modelled from the spec: the fixed named archetypes of the `biased`
strategy (conservative, moderate, progressive, radical, neutral), each
a canonical grade vector over the 4-candidate slate. -/
def biasedArchetypes : List (List ℕ) :=
  [[4, 2, 1, 0], [2, 4, 2, 1], [1, 2, 4, 2], [0, 1, 2, 4], [2, 2, 2, 2]]

/-- The generation strategies the engine recognises. -/
inductive Strategy
  | random
  | clustered
  | biased
deriving DecidableEq

/-- Modelled from the spec: recognise a strategy name; any other name
is rejected (`UnknownStrategy`). -/
def parseStrategy : String → Option Strategy := fun s =>
  if s = "random" then some .random
  else if s = "clustered" then some .clustered
  else if s = "biased" then some .biased
  else none

/-- A generated synthetic agent: a per-ballot synthetic identifier and
the four grades of its preference vector. -/
structure GenAgent where
  agentIdx : ℕ
  preferences : List ℕ
deriving DecidableEq

/-- Produce one synthetic preference vector under a strategy.
`archs` is the latent archetype list (used by `clustered`). -/
def genOne (strat : Strategy) (archs : List (List ℕ)) (r : Rng) :
    List ℕ × Rng :=
  match strat with
  | .random => randList 4 5 r
  | .clustered =>
    let (p, r') := randList 4 5 r
    addNoise (nearestArchetype p archs) r'
  | .biased =>
    let (k, r') := randBelow biasedArchetypes.length r
    addNoise (biasedArchetypes.getD k [2, 2, 2, 2]) r'

/-- Generate `n` agents, numbering them from `idx`. -/
def genLoop : ℕ → ℕ → Strategy → List (List ℕ) → Rng → List GenAgent × Rng
  | 0, _, _, _, r => ([], r)
  | n + 1, idx, strat, archs, r =>
    let (p, r') := genOne strat archs r
    let (rest, r'') := genLoop n (idx + 1) strat archs r'
    ({ agentIdx := idx, preferences := p } :: rest, r'')

/-- Generate the latent archetypes a strategy needs (three random
grade-space points for `clustered`, none otherwise). -/
def genArchetypes (strat : Strategy) (r : Rng) : List (List ℕ) × Rng :=
  match strat with
  | .clustered =>
    let (a1, r1) := randList 4 5 r
    let (a2, r2) := randList 4 5 r1
    let (a3, r3) := randList 4 5 r2
    ([a1, a2, a3], r3)
  | _ => ([], r)

/-- Modelled from the spec: the synthetic ballot generator — a pure
function of the `(count, strategy, seed)` triple, owning one seeded
stream per call. -/
def generate (count : ℕ) (strat : Strategy) (seed : ℕ) : List GenAgent :=
  let r0 : Rng := ⟨seed⟩
  let (archs, r1) := genArchetypes strat r0
  (genLoop count 0 strat archs r1).1

lemma genLoop_length (n idx : ℕ) (strat : Strategy) (archs : List (List ℕ))
    (r : Rng) : (genLoop n idx strat archs r).1.length = n := by
  induction n generalizing idx r with
  | zero => rfl
  | succ n ih => simp [genLoop, ih]

/-- The generator always emits exactly `count` agents. -/
lemma generate_length (count : ℕ) (strat : Strategy) (seed : ℕ) :
    (generate count strat seed).length = count := by
  simp [generate, genLoop_length]

/-! ## Server model (`frontend/server.js`)

The Express server keeps an in-memory database
`{ sessions: {…}, votes: {…} }`; `votes[sessionId]` is the ordered
list of vote rows for one session.  JavaScript's missing-key access is
modelled by total functions defaulting to `false` / `[]`. -/

/-- One stored vote row, as built by the server (`id`, `agent_id`,
`is_synthetic` stored as `1`/`0`, and the four candidate grades —
JavaScript numbers, hence rationals). -/
structure Vote where
  id : ℕ
  agentId : ℕ
  isSynthetic : ℕ
  prefs : List ℚ
deriving DecidableEq

/-- Placeholder row used only as the `getD` default. -/
def defaultVote : Vote := ⟨0, 0, 0, []⟩

/-- The server's in-memory database: session existence and per-session
vote lists, keyed by session id. -/
structure ServerState where
  sessions : String → Bool
  votes : String → List Vote

/-- The freshly initialised database `{ sessions: {}, votes: {} }`. -/
def initState : ServerState := ⟨fun _ => false, fun _ => []⟩

/-- Point-update of the per-session vote map. -/
def setVotes (v : String → List Vote) (sid : String) (l : List Vote) :
    String → List Vote :=
  fun k => if k = sid then l else v k

/-- The error responses the server produces. -/
inductive ApiError
  | sessionNotFound
  | badRequest (msg : String)
  | serverError (msg : String)
deriving DecidableEq

/-- `POST /api/sessions`: register the session and reset its vote list. -/
def createSessionS (st : ServerState) (sid : String) : ServerState :=
  { sessions := fun k => if k = sid then true else st.sessions k
    votes := setVotes st.votes sid [] }

/-- The server's ballot validation: `preferences` must be an array of
exactly 4 numbers, each between 0 and 4 (`server.js` lines 120–128). -/
def prefsLengthOk (prefs : List ℚ) : Bool := prefs.length == 4

def prefsRangeOk (prefs : List ℚ) : Bool :=
  prefs.all (fun p => decide (0 ≤ p) && decide (p ≤ 4))

/-- `POST /api/sessions/:sessionId/votes` (`server.js` lines 109–154):
validate the session and the preferences, then append one vote row
whose `id` is the current list length plus one. -/
def castVote (st : ServerState) (sid : String) (agentId : Option ℕ)
    (prefs : List ℚ) (isSyn : Bool) : Except ApiError (ServerState × ℕ) :=
  if st.sessions sid = false then .error .sessionNotFound
  else if prefsLengthOk prefs = false then
    .error (.badRequest "Preferences must be an array of 4 ratings")
  else if prefsRangeOk prefs = false then
    .error (.badRequest "Each preference must be a number between 0 and 4")
  else
    let vs := st.votes sid
    let v : Vote :=
      { id := vs.length + 1
        agentId := agentId.getD 0
        isSynthetic := if isSyn then 1 else 0
        prefs := prefs }
    .ok ({ st with votes := setVotes st.votes sid (vs ++ [v]) }, v.id)

/-- The state after a cast-vote request (unchanged when it errors). -/
def castVoteS (st : ServerState) (sid : String) (agentId : Option ℕ)
    (prefs : List ℚ) (isSyn : Bool) : ServerState :=
  match castVote st sid agentId prefs isSyn with
  | .ok (st', _) => st'
  | .error _ => st

/-- JavaScript's `numAgents || 10` default: an absent count — or the
falsy count `0` — becomes 10. -/
def effectiveCount : Option ℕ → ℕ
  | none => 10
  | some 0 => 10
  | some (n + 1) => n + 1

/-- JavaScript's `strategy || 'biased'` default (absent or empty name
becomes `"biased"`). -/
def effectiveStrategy : Option String → String
  | none => "biased"
  | some s => if s = "" then "biased" else s

/-- Turn the generated agents into vote rows, ids counting up from
`startId` and `is_synthetic = 1` (`server.js` lines 206–221). -/
def withIds (startId : ℕ) : List GenAgent → List Vote
  | [] => []
  | a :: rest =>
    { id := startId
      agentId := a.agentIdx
      isSynthetic := 1
      prefs := a.preferences.map (fun g => (g : ℚ)) } :: withIds (startId + 1) rest

/-- `POST /api/sessions/:sessionId/generate` (`server.js` lines
157–234): validate the session, run the (spec-modelled) generator
subprocess with the effective count/strategy and the request's seed —
drawing a seed from the ambient process randomness when the request
carries none — and append the generated rows on success.  An
unrecognised strategy makes the subprocess fail, which the server
surfaces as a 500 error with nothing appended. -/
def generateEndpoint (st : ServerState) (sid : String)
    (numAgents : Option ℕ) (strategy : Option String) (seed : Option ℕ)
    (ambient : Rng) :
    Except ApiError (ServerState × List GenAgent) × Rng :=
  if st.sessions sid = false then (.error .sessionNotFound, ambient)
  else
    let count := effectiveCount numAgents
    let stratName := effectiveStrategy strategy
    let seedVal := match seed with | some s => s | none => (rngNext ambient).1
    let ambient' := match seed with | some _ => ambient | none => (rngNext ambient).2
    match parseStrategy stratName with
    | none => (.error (.serverError "Failed to generate votes"), ambient')
    | some strat =>
      let agents := generate count strat seedVal
      let vs := st.votes sid
      let newVotes := vs ++ withIds (vs.length + 1) agents
      (.ok ({ st with votes := setVotes st.votes sid newVotes }, agents),
        ambient')

/-- The state after a generate request (unchanged when it errors). -/
def generateS (st : ServerState) (sid : String) (numAgents : Option ℕ)
    (strategy : Option String) (seed : Option ℕ) (ambient : Rng) :
    ServerState :=
  match (generateEndpoint st sid numAgents strategy seed ambient).1 with
  | .ok (st', _) => st'
  | .error _ => st

/-- `DELETE /api/sessions/:sessionId/votes` (`server.js` lines
305–314): reset the session's vote list. -/
def clearVotesS (st : ServerState) (sid : String) : ServerState :=
  { st with votes := setVotes st.votes sid [] }

/-- `DELETE /api/sessions/:sessionId` (`server.js` lines 293–302):
drop the session and its votes (a missing key reads as `[]`). -/
def deleteSessionS (st : ServerState) (sid : String) : ServerState :=
  { sessions := fun k => if k = sid then false else st.sessions k
    votes := setVotes st.votes sid [] }

/-- The responses of the results route, polymorphic in whatever the
election engine returns (`results` is filled by the engine only on the
non-empty path). -/
inductive ResultsResponse (α : Type)
  | emptyElectorate
  | ok (totalVotes syntheticVotes manualVotes : ℕ) (results : α)
  | failure (msg : String)
deriving DecidableEq

/-- `GET /api/sessions/:sessionId/results` (`server.js` lines 237–290):
unknown session fails; a zero-length vote list returns the distinguished
empty-electorate response *before* the election subprocess is spawned;
otherwise the engine `evalFn` runs on the stored votes and the counts
are computed from the `is_synthetic` flags (JavaScript truthiness:
synthetic ⟺ `is_synthetic ≠ 0`). -/
def resultsEndpoint {α : Type} (evalFn : List Vote → α) (st : ServerState)
    (sid : String) : ResultsResponse α :=
  if st.sessions sid = false then .failure "Session not found"
  else
    let vs := st.votes sid
    if vs.length = 0 then .emptyElectorate
    else
      .ok vs.length
        (vs.countP (fun v => !(v.isSynthetic == 0)))
        (vs.countP (fun v => v.isSynthetic == 0))
        (evalFn vs)

/-- Extract the generated agents from a generate response. -/
def agentsOf : Except ApiError (ServerState × List GenAgent) →
    Option (List GenAgent)
  | .ok (_, agents) => some agents
  | .error _ => none

/-! ## Helper lemmas about the server model -/

lemma setVotes_same (v : String → List Vote) (sid : String) (l : List Vote) :
    setVotes v sid l sid = l := by
  simp [setVotes]

lemma setVotes_apply (v : String → List Vote) (sid k : String)
    (l : List Vote) :
    setVotes v sid l k = if k = sid then l else v k := rfl

lemma withIds_length (startId : ℕ) (agents : List GenAgent) :
    (withIds startId agents).length = agents.length := by
  induction agents generalizing startId with
  | nil => rfl
  | cons a rest ih => simp [withIds, ih]

lemma withIds_synthetic (startId : ℕ) (agents : List GenAgent) :
    ∀ v ∈ withIds startId agents, v.isSynthetic = 1 := by
  induction agents generalizing startId with
  | nil => intro v hv; cases hv
  | cons a rest ih =>
    intro v hv
    rcases List.mem_cons.mp hv with hv | hv
    · subst hv; rfl
    · exact ih _ v hv

lemma withIds_agentIds (startId : ℕ) (agents : List GenAgent) :
    (withIds startId agents).map Vote.agentId =
      agents.map GenAgent.agentIdx := by
  induction agents generalizing startId with
  | nil => rfl
  | cons a rest ih => simp [withIds, ih]

lemma genLoop_agentIdx (n idx : ℕ) (strat : Strategy)
    (archs : List (List ℕ)) (r : Rng) :
    (genLoop n idx strat archs r).1.map GenAgent.agentIdx =
      List.range' idx n := by
  induction n generalizing idx r with
  | zero => rfl
  | succ n ih => simp [genLoop, List.range', ih]

/-- Each generated agent carries its own synthetic identifier: the
identifiers of `generate count strat seed` are exactly `0, …, count-1`
in order. -/
lemma generate_agentIdx (count : ℕ) (strat : Strategy) (seed : ℕ) :
    (generate count strat seed).map GenAgent.agentIdx = List.range count := by
  simp [generate, genLoop_agentIdx, List.range_eq_range']

lemma effectiveCount_pos (c : ℕ) (hc : 1 ≤ c) :
    effectiveCount (some c) = c := by
  cases c with
  | zero => omega
  | succ n => rfl

/-- Counting a predicate and its negation partitions a list. -/
lemma countP_partition {α : Type} (p : α → Bool) (l : List α) :
    l.countP p + l.countP (fun a => !(p a)) = l.length := by
  induction l with
  | nil => rfl
  | cons a l ih =>
    by_cases h : p a = true <;>
      simp [List.countP_cons, h, ← ih] <;> omega

/-! ## The vote-id invariant (claim C9) -/

/-- The vote rows of a list carry consecutive ids starting at `n`. -/
def idsFrom : ℕ → List Vote → Prop
  | _, [] => True
  | n, v :: vs => v.id = n ∧ idsFrom (n + 1) vs

lemma idsFrom_append (n : ℕ) (l₁ l₂ : List Vote) (h₁ : idsFrom n l₁)
    (h₂ : idsFrom (n + l₁.length) l₂) : idsFrom n (l₁ ++ l₂) := by
  induction l₁ generalizing n with
  | nil => simpa using h₂
  | cons v vs ih =>
    obtain ⟨hv, hvs⟩ := h₁
    refine ⟨hv, ih (n + 1) hvs ?_⟩
    simpa [Nat.add_assoc, Nat.add_comm 1 vs.length] using h₂

lemma idsFrom_withIds (agents : List GenAgent) (startId : ℕ) :
    idsFrom startId (withIds startId agents) := by
  induction agents generalizing startId with
  | nil => trivial
  | cons a rest ih => exact ⟨rfl, ih (startId + 1)⟩

lemma idsFrom_getD (l : List Vote) (n : ℕ) (h : idsFrom n l) :
    ∀ i, i < l.length → (l.getD i defaultVote).id = n + i := by
  induction l generalizing n with
  | nil => intro i hi; cases hi
  | cons v vs ih =>
    intro i hi
    obtain ⟨hv, hvs⟩ := h
    cases i with
    | zero => simpa using hv
    | succ i =>
      have := ih (n + 1) hvs i (by simpa using hi)
      simpa [List.getD, Nat.add_assoc, Nat.add_comm 1 i] using this

/-- The stored-vote invariant: every session's vote list carries
consecutive ids from 1. -/
def VoteIdsOk (st : ServerState) : Prop :=
  ∀ sid, idsFrom 1 (st.votes sid)

/-- The states the server can reach from a fresh database by the
mutating routes (create session, cast vote, generate, clear votes,
delete session). -/
inductive Reachable : ServerState → Prop
  | init : Reachable initState
  | create (st : ServerState) (sid : String) : Reachable st →
      Reachable (createSessionS st sid)
  | cast (st : ServerState) (sid : String) (agentId : Option ℕ)
      (prefs : List ℚ) (isSyn : Bool) : Reachable st →
      Reachable (castVoteS st sid agentId prefs isSyn)
  | gen (st : ServerState) (sid : String) (numAgents : Option ℕ)
      (strategy : Option String) (seed : Option ℕ) (ambient : Rng) :
      Reachable st →
      Reachable (generateS st sid numAgents strategy seed ambient)
  | clear (st : ServerState) (sid : String) : Reachable st →
      Reachable (clearVotesS st sid)
  | del (st : ServerState) (sid : String) : Reachable st →
      Reachable (deleteSessionS st sid)

lemma voteIdsOk_setVotes (st : ServerState) (sid : String) (l : List Vote)
    (h : VoteIdsOk st) (hl : idsFrom 1 l) :
    VoteIdsOk { st with votes := setVotes st.votes sid l } := by
  intro k
  by_cases hk : k = sid <;> simp [setVotes_apply, hk] <;> [exact hl; exact h k]

lemma voteIdsOk_castVoteS (st : ServerState) (sid : String)
    (agentId : Option ℕ) (prefs : List ℚ) (isSyn : Bool)
    (h : VoteIdsOk st) : VoteIdsOk (castVoteS st sid agentId prefs isSyn) := by
  unfold castVoteS castVote
  by_cases h1 : st.sessions sid = false
  · simpa [h1] using h
  · by_cases h2 : prefsLengthOk prefs = false
    · simpa [h1, h2] using h
    · by_cases h3 : prefsRangeOk prefs = false
      · simpa [h1, h2, h3] using h
      · simp only [h1, h2, h3, if_false]
        refine voteIdsOk_setVotes st sid _ h ?_
        refine idsFrom_append 1 (st.votes sid) _ (h sid) ?_
        exact ⟨by simp [Nat.add_comm], trivial⟩

lemma voteIdsOk_generateS (st : ServerState) (sid : String)
    (numAgents : Option ℕ) (strategy : Option String) (seed : Option ℕ)
    (ambient : Rng) (h : VoteIdsOk st) :
    VoteIdsOk (generateS st sid numAgents strategy seed ambient) := by
  unfold generateS generateEndpoint
  by_cases h1 : st.sessions sid = false
  · simpa [h1] using h
  · cases hp : parseStrategy (effectiveStrategy strategy) with
    | none => simpa [h1, hp] using h
    | some strat =>
      simp only [h1, hp, if_false]
      refine voteIdsOk_setVotes st sid _ h ?_
      refine idsFrom_append 1 (st.votes sid) _ (h sid) ?_
      simpa [Nat.add_comm] using
        idsFrom_withIds (generate (effectiveCount numAgents) strat
          (match seed with | some s => s | none => (rngNext ambient).1))
          ((st.votes sid).length + 1)

/-- Every reachable server state satisfies the vote-id invariant. -/
lemma reachable_voteIdsOk (st : ServerState) (h : Reachable st) :
    VoteIdsOk st := by
  induction h with
  | init => intro sid; trivial
  | create st sid _ ih =>
    intro k
    by_cases hk : k = sid <;> simp [createSessionS, setVotes_apply, hk]
    · trivial
    · exact ih k
  | cast st sid agentId prefs isSyn _ ih =>
    exact voteIdsOk_castVoteS st sid agentId prefs isSyn ih
  | gen st sid numAgents strategy seed ambient _ ih =>
    exact voteIdsOk_generateS st sid numAgents strategy seed ambient ih
  | clear st sid _ ih =>
    intro k
    by_cases hk : k = sid <;> simp [clearVotesS, setVotes_apply, hk]
    · trivial
    · exact ih k
  | del st sid _ ih =>
    intro k
    by_cases hk : k = sid <;> simp [deleteSessionS, setVotes_apply, hk]
    · trivial
    · exact ih k

/-! ## Claim theorems -/

/-- C1: for every session whose ballot sequence has length zero, a
results request returns the distinguished empty-electorate response —
never a crash response and never a default winner — and the rule
evaluators are not invoked on the empty collection (the response is the
same whatever engine function is supplied). -/
theorem emptyElectorate_signaled {α : Type} (f g : List Vote → α)
    (st : ServerState) (sid : String) (hs : st.sessions sid = true)
    (hv : st.votes sid = []) :
    resultsEndpoint f st sid = ResultsResponse.emptyElectorate ∧
    resultsEndpoint f st sid = resultsEndpoint g st sid ∧
    (∀ total synth manual r,
      resultsEndpoint f st sid ≠ ResultsResponse.ok total synth manual r) ∧
    (∀ msg, resultsEndpoint f st sid ≠ ResultsResponse.failure msg) := by
  have he : resultsEndpoint f st sid = ResultsResponse.emptyElectorate := by
    simp [resultsEndpoint, hs, hv]
  have hg : resultsEndpoint g st sid = ResultsResponse.emptyElectorate := by
    simp [resultsEndpoint, hs, hv]
  refine ⟨he, he.trans hg.symm, ?_, ?_⟩
  · intro total synth manual r hcontra
    rw [he] at hcontra
    cases hcontra
  · intro msg hcontra
    rw [he] at hcontra
    cases hcontra

/-- Witness for C1 at a freshly created session with no votes. -/
theorem emptyElectorate_signaled_witness :
    resultsEndpoint (fun _ => (0 : ℕ)) (createSessionS initState "s") "s" =
      ResultsResponse.emptyElectorate :=
  (emptyElectorate_signaled (fun _ => (0 : ℕ)) (fun _ => (0 : ℕ))
    (createSessionS initState "s") "s" rfl rfl).1

/-- C2: a cast-vote request on an existing session whose preferences
are not exactly one grade per candidate of the fixed 4-candidate slate,
or contain a grade outside `[0, 4]`, is rejected with a 400 validation
error, and the session's stored ballot collection is unchanged. -/
theorem malformed_ballot_rejected (st : ServerState) (sid : String)
    (agentId : Option ℕ) (prefs : List ℚ) (isSyn : Bool)
    (hs : st.sessions sid = true)
    (hbad : prefs.length ≠ 4 ∨ ∃ p ∈ prefs, p < 0 ∨ 4 < p) :
    (∃ msg, castVote st sid agentId prefs isSyn =
      Except.error (ApiError.badRequest msg)) ∧
    castVoteS st sid agentId prefs isSyn = st := by
  have main : ∃ msg, castVote st sid agentId prefs isSyn =
      Except.error (ApiError.badRequest msg) := by
    by_cases hlen : prefsLengthOk prefs = false
    · exact ⟨"Preferences must be an array of 4 ratings",
        by simp [castVote, hs, hlen]⟩
    · have hlenT : prefsLengthOk prefs = true := by
        simpa using hlen
      have hlen4 : prefs.length = 4 := by
        simpa [prefsLengthOk] using hlenT
      rcases hbad with hbad | ⟨p, hp, hpbad⟩
      · exact absurd hlen4 hbad
      · have hrange : prefsRangeOk prefs = false := by
          rw [Bool.eq_false_iff]
          intro hall
          have hap := List.all_eq_true.mp hall p hp
          have : 0 ≤ p ∧ p ≤ 4 := by simpa using hap
          rcases hpbad with hlt | hgt
          · exact absurd this.1 (not_le.mpr hlt)
          · exact absurd this.2 (not_le.mpr hgt)
        exact ⟨"Each preference must be a number between 0 and 4",
          by simp [castVote, hs, hlenT, hrange]⟩
  obtain ⟨msg, hmsg⟩ := main
  exact ⟨⟨msg, hmsg⟩, by simp [castVoteS, hmsg]⟩

/-- Witness for C2: the out-of-range grade 5 is rejected and the store
is untouched. -/
theorem malformed_ballot_rejected_witness :
    castVoteS (createSessionS initState "s") "s" none
      [5, 0, 0, 0] false = createSessionS initState "s" :=
  (malformed_ballot_rejected (createSessionS initState "s") "s" none
    [5, 0, 0, 0] false rfl
    (Or.inr ⟨5, by simp, Or.inr (by norm_num)⟩)).2

/-- C3 counterexample: on the §8 scenario the lower-median rule does
NOT give candidate A median 0 with a full four-way tie — A's grade
multiset `{4,4,4,0,0}` has lower median 4, so the claimed outcome is
false. -/
theorem mj_scenario_counterexample :
    ¬ (mjMedian scenarioBallots 0 = 0 ∧ mjMedian scenarioBallots 1 = 0 ∧
       mjMedian scenarioBallots 2 = 0 ∧ mjMedian scenarioBallots 3 = 0 ∧
       mjWinners scenarioBallots = [0, 1, 2, 3]) := by
  decide

/-- C3 amended: on the 5-ballot scenario the lower-median rule yields
median 4 for A and 0 for B, C, D, and Majority Judgment reports A as
the unique winner (no tie-break needed). -/
theorem mj_scenario_amended :
    mjMedian scenarioBallots 0 = 4 ∧ mjMedian scenarioBallots 1 = 0 ∧
    mjMedian scenarioBallots 2 = 0 ∧ mjMedian scenarioBallots 3 = 0 ∧
    mjWinners scenarioBallots = [0] := by
  decide

/-- C4: two generate invocations with the same `(count, strategy,
seed)` triple produce identical ballot sequences, independent of the
server state they run against and of any ambient process randomness. -/
theorem generator_deterministic (st₁ st₂ : ServerState)
    (sid₁ sid₂ : String) (numAgents : Option ℕ) (strategy : Option String)
    (seed : ℕ) (amb₁ amb₂ : Rng) (h₁ : st₁.sessions sid₁ = true)
    (h₂ : st₂.sessions sid₂ = true) :
    agentsOf (generateEndpoint st₁ sid₁ numAgents strategy
        (some seed) amb₁).1 =
      agentsOf (generateEndpoint st₂ sid₂ numAgents strategy
        (some seed) amb₂).1 := by
  cases hp : parseStrategy (effectiveStrategy strategy) <;>
    simp [generateEndpoint, agentsOf, h₁, h₂, hp]

/-- Witness for C4: two calls on different sessions, stores and
ambient randomness agree on the generated ballots. -/
theorem generator_deterministic_witness :
    agentsOf (generateEndpoint (createSessionS initState "a") "a"
        (some 3) (some "random") (some 42) ⟨5⟩).1 =
      agentsOf (generateEndpoint (createSessionS initState "b") "b"
        (some 3) (some "random") (some 42) ⟨99⟩).1 :=
  generator_deterministic (createSessionS initState "a")
    (createSessionS initState "b") "a" "b" (some 3) (some "random") 42
    ⟨5⟩ ⟨99⟩ rfl rfl

/-- C5 counterexample: a generate request with count 0 does not append
0 ballots — JavaScript's `numAgents || 10` default turns the falsy
count 0 into 10, so 10 synthetic ballots are generated and appended. -/
theorem generate_count_zero_counterexample :
    ((generateS (createSessionS initState "s") "s" (some 0)
        (some "biased") (some 1) ⟨0⟩).votes "s").length = 10 ∧
    (10 : ℕ) ≠ 0 := by
  exact ⟨by decide, by decide⟩

/-- C5 amended: for every generate request with count ≥ 1 on an
existing session and a recognised strategy, the generator outputs
exactly `count` ballots, each carrying its own synthetic identifier,
and exactly `count` rows — all flagged synthetic — are appended to the
session's store (a request with count 0 or no count falls back to the
default of 10). -/
theorem generate_count_appended (st : ServerState) (sid : String)
    (c : ℕ) (strategy : Option String) (strat : Strategy) (s : ℕ)
    (amb : Rng) (hs : st.sessions sid = true) (hc : 1 ≤ c)
    (hp : parseStrategy (effectiveStrategy strategy) = some strat) :
    (generateEndpoint st sid (some c) strategy (some s) amb).1 =
      Except.ok ({ st with votes := setVotes st.votes sid (st.votes sid ++
          withIds ((st.votes sid).length + 1) (generate c strat s)) },
        generate c strat s) ∧
    (generate c strat s).length = c ∧
    (st.votes sid ++ withIds ((st.votes sid).length + 1)
        (generate c strat s)).length = (st.votes sid).length + c ∧
    (∀ v ∈ withIds ((st.votes sid).length + 1) (generate c strat s),
        v.isSynthetic = 1) ∧
    (generate c strat s).map GenAgent.agentIdx = List.range c := by
  have hce := effectiveCount_pos c hc
  refine ⟨by simp [generateEndpoint, hs, hp, hce], generate_length c strat s,
    by simp [withIds_length, generate_length], withIds_synthetic _ _,
    generate_agentIdx c strat s⟩

/-- Witness for C5 (amended) at a concrete 2-ballot request. -/
theorem generate_count_appended_witness :
    (generate 2 Strategy.random 7).length = 2 :=
  (generate_count_appended (createSessionS initState "s") "s" 2
    (some "random") Strategy.random 7 ⟨0⟩ rfl (by decide) rfl).2.1

/-- C6: the Plurality evaluator distributes exactly one unit of vote
mass per ballot — a unique top candidate receives the full vote, `k`
tied top candidates receive `1/k` each — so the total vote mass over
the slate equals the number of ballots. -/
theorem plurality_vote_mass (ballots : List Ballot) :
    (∀ b : Ballot, (∑ c, pluralityShare b c) = 1) ∧
    (∀ b : Ballot, ∀ c ∈ topChoices b, topCount b = 1 →
      pluralityShare b c = 1) ∧
    (∑ c, pluralityVotes ballots c) = (ballots.length : ℚ) := by
  refine ⟨sum_pluralityShare,
    fun b c hc h1 => pluralityShare_unique_top b c hc h1, ?_⟩
  induction ballots with
  | nil => simp [pluralityVotes]
  | cons b bs ih =>
    have hsplit : ∀ c, pluralityVotes (b :: bs) c =
        pluralityShare b c + pluralityVotes bs c := by
      intro c
      simp [pluralityVotes]
    simp only [hsplit]
    rw [Finset.sum_add_distrib, ih, sum_pluralityShare]
    simp [List.length_cons]
    ring

/-- Witness for C6: a unique-top ballot gives its top candidate one
vote, and the mass over a concrete one-ballot collection is 1. -/
theorem plurality_vote_mass_witness :
    pluralityShare (mkBallot 4 0 0 0) 0 = 1 ∧
    (∑ c, pluralityVotes [mkBallot 4 0 0 0] c) =
      (([mkBallot 4 0 0 0] : List Ballot).length : ℚ) :=
  ⟨(plurality_vote_mass []).2.1 (mkBallot 4 0 0 0) 0 (by decide) (by decide),
    (plurality_vote_mass [mkBallot 4 0 0 0]).2.2⟩

/-- C7: each candidate's Borda score is the plain sum of that
candidate's grades over the ballots, and the Borda winner set consists
exactly of the candidates whose summed grade is maximal (all tied
maximal candidates included). -/
theorem borda_winners_maximal (ballots : List Ballot) :
    (∀ c, bordaScore ballots c = (ballots.map (fun b => b c)).sum) ∧
    ∀ c : Fin 4, c ∈ bordaWinners ballots ↔
      ∀ c', bordaScore ballots c' ≤ bordaScore ballots c := by
  refine ⟨fun c => rfl, fun c => ?_⟩
  constructor
  · intro hc c'
    have hmem : bordaScore ballots c = maxBordaScore ballots := by
      simpa [bordaWinners] using hc
    rw [hmem]
    exact Finset.le_sup' (bordaScore ballots) (Finset.mem_univ c')
  · intro hmax
    have heq : bordaScore ballots c = maxBordaScore ballots :=
      le_antisymm (Finset.le_sup' (bordaScore ballots) (Finset.mem_univ c))
        (Finset.sup'_le _ _ (fun c' _ => hmax c'))
    simp [bordaWinners, heq]

/-- Witness for C7: on the §8 scenario candidate A (score 12) is in
the Borda winner set. -/
theorem borda_winners_maximal_witness :
    (0 : Fin 4) ∈ bordaWinners scenarioBallots :=
  ((borda_winners_maximal scenarioBallots).2 0).mpr (by decide)

/-- C8 counterexample: the empty strategy name `""` is not one of
`random`, `clustered`, `biased`, yet the request does not fail —
JavaScript's `strategy || 'biased'` default turns the falsy name into
`"biased"`, and the ballot is generated and appended. -/
theorem unknown_strategy_empty_counterexample :
    parseStrategy "" = none ∧
    ((generateS (createSessionS initState "s") "s" (some 1) (some "")
        (some 1) ⟨0⟩).votes "s").length = 1 := by
  exact ⟨by decide, by decide⟩

/-- C8 amended: every generate request on an existing session whose
strategy name is non-empty and not one of `random`, `clustered`,
`biased` fails with the unknown-strategy error before any ballot is
generated or appended; the empty (falsy) name instead falls back to
the default `biased`. -/
theorem unknown_strategy_rejected (st : ServerState) (sid : String)
    (numAgents : Option ℕ) (s : String) (seed : Option ℕ) (amb : Rng)
    (hs : st.sessions sid = true) (hne : s ≠ "")
    (hp : parseStrategy s = none) :
    (generateEndpoint st sid numAgents (some s) seed amb).1 =
      Except.error (ApiError.serverError "Failed to generate votes") ∧
    generateS st sid numAgents (some s) seed amb = st := by
  have he : effectiveStrategy (some s) = s := by
    simp [effectiveStrategy, hne]
  constructor
  · simp [generateEndpoint, hs, he, hp]
  · simp [generateS, generateEndpoint, hs, he, hp]

/-- Witness for C8 (amended) at the unrecognised name `"foo"`. -/
theorem unknown_strategy_rejected_witness :
    generateS (createSessionS initState "s") "s" none (some "foo")
      none ⟨0⟩ = createSessionS initState "s" :=
  (unknown_strategy_rejected (createSessionS initState "s") "s" none
    "foo" none ⟨0⟩ rfl (by decide) rfl).2

/-- C9: in every reachable server state, for every session, the vote
stored at 0-based index `i` has id `i + 1`; the invariant is preserved
by session creation, casting a vote, generating synthetic votes,
clearing a session's votes and deleting a session. -/
theorem vote_ids_consecutive (st : ServerState) (h : Reachable st)
    (sid : String) (i : ℕ) (hi : i < (st.votes sid).length) :
    ((st.votes sid).getD i defaultVote).id = i + 1 := by
  have := idsFrom_getD (st.votes sid) 1 (reachable_voteIdsOk st h sid) i hi
  omega

/-- Witness for C9: after creating a session and casting one vote, the
vote at index 0 has id 1. -/
theorem vote_ids_consecutive_witness :
    (((castVoteS (createSessionS initState "s") "s" none
        [2, 2, 2, 2] false).votes "s").getD 0 defaultVote).id = 0 + 1 :=
  vote_ids_consecutive _
    (Reachable.cast _ "s" none [2, 2, 2, 2] false
      (Reachable.create _ "s" Reachable.init)) "s" 0 (by decide)

/-- C10: a results request on a session with at least one stored vote
reports `totalVotes` equal to the stored count, and the
manual/synthetic counts — each vote classified by the truthiness of
its `is_synthetic` flag — partition the total exactly. -/
theorem results_counts_partition {α : Type} (evalFn : List Vote → α)
    (st : ServerState) (sid : String) (hs : st.sessions sid = true)
    (hne : st.votes sid ≠ []) :
    resultsEndpoint evalFn st sid =
      ResultsResponse.ok (st.votes sid).length
        ((st.votes sid).countP (fun v => !(v.isSynthetic == 0)))
        ((st.votes sid).countP (fun v => v.isSynthetic == 0))
        (evalFn (st.votes sid)) ∧
    (st.votes sid).countP (fun v => v.isSynthetic == 0) +
      (st.votes sid).countP (fun v => !(v.isSynthetic == 0)) =
      (st.votes sid).length := by
  have hlen : (st.votes sid).length ≠ 0 := by
    simpa [List.length_eq_zero] using hne
  exact ⟨by simp [resultsEndpoint, hs, hlen],
    countP_partition (fun v => v.isSynthetic == 0) (st.votes sid)⟩

/-- Witness for C10 on a one-vote session. -/
theorem results_counts_partition_witness :
    ((castVoteS (createSessionS initState "s") "s" none
        [2, 2, 2, 2] false).votes "s").countP
        (fun v => v.isSynthetic == 0) +
      ((castVoteS (createSessionS initState "s") "s" none
        [2, 2, 2, 2] false).votes "s").countP
        (fun v => !(v.isSynthetic == 0)) =
      ((castVoteS (createSessionS initState "s") "s" none
        [2, 2, 2, 2] false).votes "s").length :=
  (results_counts_partition (fun _ => (0 : ℕ))
    (castVoteS (createSessionS initState "s") "s" none [2, 2, 2, 2] false)
    "s" rfl (by decide)).2

end SCT
